import Mathlib

/-!
Verification development for the PhishingIntellect backend
(`src/routes/url_routes.py` and `src/routes/image_routes.py`).

The Python functions are shallowly embedded as Lean definitions:
byte strings become `List Nat`, Python `float` values computed by the
classifier become `ℚ` (every value produced here is an exact small
rational, so the idealization is faithful for the comparisons the code
performs; `float("inf")` becomes `⊤ : WithTop ℚ`), fallible code
returns `Option`.  A parsed, normalized HTML document (the
BeautifulSoup value produced by `normalize_html` /
`soup_and_text_from_html`) is abstracted as a `Page` carrying exactly
the three observations the classifier extracts from it: the tag names
(`soup.find_all()`), the lower-cased link-domain hosts
(`extract_domains`), and the UTF-8 visible-text bytes used for NCD.
Filesystem directories are embedded as explicit entry lists in
`os.listdir` order; `None` models a missing directory
(`os.path.isdir` false).
-/

namespace PhishingIntellect

/-! ## CompressionDistanceEngine (`compress`, `ncd`)

`compress` in both `url_routes.py` (lines 54–58) and `image_routes.py`
(lines 18–22) is the byte length of `gzip.GzipFile` output at the
default compression level.  We embed it as an exact byte-length model
of CPython's gzip stream for short, repeat-free payloads: a 10-byte
gzip header, a single final DEFLATE block with fixed Huffman codes
(3 header bits, 8 bits per literal byte < 144, 9 bits per literal
byte ≥ 144, a 7-bit end-of-block code, padded to a whole byte), and
the 8-byte CRC32/ISIZE trailer.  This matches CPython exactly on every
payload used below: gzip(b"") = 20, gzip(b"a") = 21, gzip(b"b") = 21,
gzip(b"c") = 21, gzip(b"aa") = 22, gzip(b"ab") = 22, gzip(b"ac") = 22,
gzip(b"abc") = 23 bytes. -/

/-- Bits of the fixed-Huffman literal code for one byte. -/
def litBits (b : Nat) : Nat := if b ≤ 143 then 8 else 9

/-- Bit length of the single fixed-Huffman DEFLATE block:
3 block-header bits, the literal codes, the 7-bit end-of-block code. -/
def deflateBits (data : List Nat) : Nat :=
  3 + (data.map litBits).sum + 7

/-- The function `compress(data)`: length in bytes of the gzip stream
(10-byte header + padded DEFLATE block + 8-byte trailer). -/
def compress (data : List Nat) : Nat :=
  10 + (deflateBits data + 7) / 8 + 8

/-- The function `ncd(x, y)` (url_routes.py lines 61–65, identically image_routes.py
lines 24–28): `(C(x+y) - min(Cx, Cy)) / max(Cx, Cy)`.  Python's `/`
raises `ZeroDivisionError` on a zero denominator, so the embedding
returns `none` in that case and `some` of the exact rational quotient
otherwise. -/
def ncd (x y : List Nat) : Option ℚ :=
  let Cx := compress x
  let Cy := compress y
  let Cxy := compress (x ++ y)
  if max Cx Cy = 0 then none
  else some (((Cxy : ℤ) - (min Cx Cy : ℤ) : ℚ) / ((max Cx Cy : ℤ) : ℚ))

theorem compress_pos (data : List Nat) : 0 < compress data := by
  simp [compress]

theorem ncd_isSome (x y : List Nat) : (ncd x y).isSome := by
  have hx := compress_pos x
  simp [ncd]
  omega

/-! ## Preprocessing result (`Page`) and StructuralSimilarity -/

/-- The observations the classifier extracts from a parsed, normalized
HTML document: tag names in document order (`soup.find_all()`), the
lower-cased hosts collected by `extract_domains`, and the UTF-8 bytes
of the visible text (`soup.get_text(...).encode("utf-8")`). -/
structure Page where
  tags : List String
  linkDomains : List String
  text : List Nat
deriving DecidableEq

/-- The function `extract_domains(soup)` (lines 85–94): the *set* of lower-cased
hosts of `href`/`src` URLs; the collection loop itself is abstracted
into `Page.linkDomains`, and this function performs the final `set(...)`. -/
def extract_domains (p : Page) : Finset String := p.linkDomains.toFinset

/-- The function `dom_similarity(soup1, soup2)` (lines 70–80): Jaccard index of the
distinct tag-name sets; `0.0` when the union is empty. -/
def dom_similarity (p1 p2 : Page) : ℚ :=
  let s1 := p1.tags.toFinset
  let s2 := p2.tags.toFinset
  let inter := (s1 ∩ s2).card
  let union := (s1 ∪ s2).card
  if 0 < union then (inter : ℚ) / (union : ℚ) else 0

/-- The function `link_similarity(soup1, soup2)` (lines 97–102): `0.0` when both
domain sets are empty, else the Jaccard index of the domain sets. -/
def link_similarity (p1 p2 : Page) : ℚ :=
  let d1 := extract_domains p1
  let d2 := extract_domains p2
  if d1 = ∅ ∧ d2 = ∅ then 0
  else ((d1 ∩ d2).card : ℚ) / ((d1 ∪ d2).card : ℚ)

/-! ## CorpusScanner (`find_best_match`, url_routes.py lines 107–132) -/

/-- The raw per-category score dictionary built by `find_best_match`:
`{"ncd": ..., "dom": ..., "links": ...}`.  `ncd` starts at
`float("inf")` (embedded as `⊤ : WithTop ℚ`); `dom`/`links` are JSON
number-or-null fields, which the scanner always fills with numbers. -/
structure Scores where
  ncd : WithTop ℚ
  dom : Option ℚ
  links : Option ℚ
deriving DecidableEq

/-- Initial `best_scores = {"ncd": float("inf"), "dom": 0.0, "links": 0.0}`. -/
def initScores : Scores := ⟨⊤, some 0, some 0⟩

/-- One directory entry as seen by the scan loop: its filename, the
result of `os.path.isfile`, and the outcome of
`read_html_file` — `none` models the read/parse raising (the
`except ... continue` path), `some` the normalized page. -/
structure Entry where
  name : String
  isFile : Bool
  content : Option Page
deriving DecidableEq

/-- The `for filename in os.listdir(folder_path)` loop of
`find_best_match`, with the running `(best_file, best_scores)` as an
explicit accumulator.  A non-file entry is passed over; a failing read
or a failing `ncd` division is caught and skipped; a strictly smaller
NCD replaces the accumulator (so the first-seen entry keeps ties). -/
def findBestMatchLoop (input : Page) :
    List Entry → Option String × Scores → Option String × Scores
  | [], best => best
  | e :: rest, best =>
    if e.isFile then
      match e.content with
      | none => findBestMatchLoop input rest best
      | some page =>
        match ncd input.text page.text with
        | none => findBestMatchLoop input rest best
        | some v =>
          if (v : WithTop ℚ) < best.2.ncd then
            findBestMatchLoop input rest
              (some e.name,
               ⟨(v : WithTop ℚ), some (dom_similarity input page),
                some (link_similarity input page)⟩)
          else findBestMatchLoop input rest best
    else findBestMatchLoop input rest best

/-- The function `find_best_match(input_soup, input_text, folder_path)`: `none` for
the folder models `os.path.isdir` returning false (missing corpus
directory); otherwise the folder is the `os.listdir` enumeration. -/
def find_best_match (input : Page) (folder : Option (List Entry)) :
    Option String × Scores :=
  match folder with
  | none => (none, initScores)
  | some entries => findBestMatchLoop input entries (none, initScores)

/-! ## KnownPhishList (`load_phish_list`, `is_known_phish`, lines 137–166) -/

/-- Python `str.strip()`: drop whitespace from both ends. -/
def pyStrip (s : List Char) : List Char :=
  ((s.dropWhile Char.isWhitespace).reverse.dropWhile Char.isWhitespace).reverse

/-- Python `str.lower()` (ASCII case mapping suffices for the URL data
handled here). -/
def pyLower (s : List Char) : List Char := s.map Char.toLower

/-- Characters allowed after the first in a URL scheme
(`urllib.parse`). -/
def isSchemeChar (c : Char) : Bool :=
  c.isAlphanum || c == '+' || c == '-' || c == '.'

/-- Strip a leading `scheme:` from a URL when the part before the first
colon is a valid scheme name, as `urllib.parse.urlsplit` does. -/
def dropScheme (s : List Char) : List Char :=
  let pre := s.takeWhile (fun c => c ≠ ':')
  if pre.length < s.length ∧ pre ≠ [] ∧ pre.headI.isAlpha ∧ pre.all isSchemeChar
  then s.drop (pre.length + 1)
  else s

/-- Model of `urllib.parse.urlparse(u).netloc`: nonempty exactly when the text
after the scheme starts with `//`, in which case it extends to the next
`/`, `?` or `#`. -/
def urlparseNetloc (s : List Char) : List Char :=
  match dropScheme s with
  | '/' :: '/' :: t => t.takeWhile (fun c => c ≠ '/' ∧ c ≠ '?' ∧ c ≠ '#')
  | _ => []

/-- Whether `needle` occurs at the head of `hay`. -/
def leadMatch : List Char → List Char → Bool
  | [], _ => true
  | _ :: _, [] => false
  | a :: as, b :: bs => a == b && leadMatch as bs

/-- Python `needle in hay` for strings: substring containment. -/
def subMatch (needle : List Char) : List Char → Bool
  | [] => needle.isEmpty
  | b :: bs => leadMatch needle (b :: bs) || subMatch needle bs

/-- The function `is_known_phish(url)` (lines 155–166) against an explicit snapshot
of `KNOWN_PHISH_URLS`: exact membership of the trimmed lower-cased URL,
or the parsed host being a nonempty substring of some listed entry. -/
def is_known_phish (known : List (List Char)) (url : List Char) : Bool :=
  let urlNorm := pyLower (pyStrip url)
  if urlNorm ∈ known then true
  else
    let domain := pyLower (urlparseNetloc urlNorm)
    known.any (fun p => !domain.isEmpty && subMatch domain p)

/-! ## JSON-safe scores and NCD-to-similarity (lines 171–190) -/

/-- Score dictionary after `sanitize_scores`: non-finite numbers
replaced by null. -/
structure SafeScores where
  ncd : Option ℚ
  dom : Option ℚ
  links : Option ℚ
deriving DecidableEq

/-- The function `sanitize_scores(scores)` on an always-present dictionary: the only
possibly non-finite value is `ncd = float("inf")`, mapped to null;
finite numbers and nulls pass through. -/
def sanitize_scores (s : Scores) : SafeScores :=
  { ncd := (match s.ncd with
      | ⊤ => none
      | (v : ℚ) => some v),
    dom := s.dom,
    links := s.links }

/-- The function `ncd_to_sim(ncd_val)` (lines 187–190): `0.0` for a non-finite
value, else `max(0.0, 1.0 - ncd_val)`. -/
def ncd_to_sim : WithTop ℚ → ℚ
  | ⊤ => 0
  | (v : ℚ) => max 0 (1 - v)

/-! ## `classify_url` (lines 195–278) -/

/-- The result dictionary of `classify_url`.  `decision = none` is the
JSON null decision (UNKNOWN). -/
structure UrlResult where
  url : List Char
  known_phish : Bool
  best_legit_file : Option String
  best_phish_file : Option String
  best_legit_scores : Option SafeScores
  best_phish_scores : Option SafeScores
  legit_total_score : ℚ
  phish_total_score : ℚ
  decision : Option String
  message : String
deriving DecidableEq

/-- Effect instrumentation: how many network fetches (`requests.get`)
were attempted and how many corpus scans (`find_best_match` calls)
were performed on a control-flow path of `classify_url`. -/
structure Trace where
  fetches : Nat
  scans : Nat
deriving DecidableEq

/-- The function `classify_url(url)`, with its external effects made explicit:
`known` is the startup `KNOWN_PHISH_URLS` snapshot, `fetched` the
outcome of `requests.get` (`none` = any fetch exception, caught at
lines 221–223) already pushed through `soup_and_text_from_html`, and
the two folders the directory states seen by `find_best_match`.
Returns the result dictionary together with the effect trace.
The f-string numeric interpolations of the messages are elided; the
constant message text is kept. -/
def classify_url_run (known : List (List Char)) (url : List Char)
    (fetched : Option Page) (legitFolder phishFolder : Option (List Entry)) :
    UrlResult × Trace :=
  let base : UrlResult :=
    { url := url, known_phish := false, best_legit_file := none,
      best_phish_file := none, best_legit_scores := none,
      best_phish_scores := none, legit_total_score := 0,
      phish_total_score := 0, decision := none, message := "" }
  if is_known_phish known url then
    ({ base with
        known_phish := true,
        decision := some "PHISHED",
        message := "⚠️ URL found in known phishing dataset." }, ⟨0, 0⟩)
  else
    match fetched with
    | none =>
        ({ base with message := "Could not fetch URL content: error" }, ⟨1, 0⟩)
    | some input =>
      let lm := find_best_match input legitFolder
      let pm := find_best_match input phishFolder
      let r1 : UrlResult :=
        { base with
          best_legit_file := lm.1,
          best_phish_file := pm.1,
          best_legit_scores :=
            if lm.1.isSome then some (sanitize_scores lm.2) else none,
          best_phish_scores :=
            if pm.1.isSome then some (sanitize_scores pm.2) else none }
      if lm.1 = none ∧ pm.1 = none then
        ({ r1 with message := "URL not in phishing list, and no reference HTML pages available for similarity comparison." }, ⟨1, 2⟩)
      else
        let legit_total : ℚ :=
          if lm.1.isSome then
            ncd_to_sim lm.2.ncd + lm.2.dom.getD 0 + lm.2.links.getD 0
          else 0
        let phish_total : ℚ :=
          if pm.1.isSome then
            ncd_to_sim pm.2.ncd + pm.2.dom.getD 0 + pm.2.links.getD 0
          else 0
        let r2 : UrlResult :=
          { r1 with
            legit_total_score := legit_total,
            phish_total_score := phish_total }
        if legit_total > phish_total ∧ legit_total > 0 then
          ({ r2 with
              decision := some "LEGITIMATE",
              message := "✅ Classified as LEGITIMATE" }, ⟨1, 2⟩)
        else if phish_total > 0 then
          ({ r2 with
              decision := some "PHISHED",
              message := "⚠️ Classified as PHISHED" }, ⟨1, 2⟩)
        else
          ({ r2 with
              decision := none,
              message := "No strong evidence from similarity metrics." }, ⟨1, 2⟩)

/-- The value `classify_url` returns to the route handler. -/
def classify_url (known : List (List Char)) (url : List Char)
    (fetched : Option Page) (legitFolder phishFolder : Option (List Entry)) :
    UrlResult :=
  (classify_url_run known url fetched legitFolder phishFolder).1

/-! ## Image classifier (`image_routes.py`)

`compress` and `ncd` there (lines 18–28) are character-for-character
the same functions as in `url_routes.py`, so the embeddings above are
shared.  `preprocess_image` (PIL decode, grayscale, resize, PNG
re-encode) is an external-library canonicalization; its outcome for a
reference entry is embedded as `Option (List Nat)` (`none` = the
`except` path), and the query artifact arrives as already-canonical
bytes (`classify_image` performs its own un-guarded query preprocess;
the route's `try` catches a failure there before `classify_image`'s
body runs its comparisons). -/

/-- The test `filename.lower().endswith(('.png', '.jpg', '.jpeg', '.bmp'))`. -/
def hasImageExt (name : String) : Bool :=
  let n := name.toLower
  n.endsWith ".png" || n.endsWith ".jpg" || n.endsWith ".jpeg" || n.endsWith ".bmp"

/-- One entry of an image corpus directory: filename and the outcome of
`preprocess_image` on it (`none` = raised, skipped). -/
structure ImgEntry where
  name : String
  content : Option (List Nat)
deriving DecidableEq

/-- The `for filename in os.listdir(folder)` loop of
`find_closest_match` (image_routes.py lines 30–45) with the running
`(best_file, best_ncd)` accumulator. -/
def findClosestLoop (inputBytes : List Nat) :
    List ImgEntry → Option String × WithTop ℚ → Option String × WithTop ℚ
  | [], best => best
  | e :: rest, best =>
    if hasImageExt e.name then
      match e.content with
      | none => findClosestLoop inputBytes rest best
      | some b =>
        match ncd inputBytes b with
        | none => findClosestLoop inputBytes rest best
        | some d =>
          if (d : WithTop ℚ) < best.2 then
            findClosestLoop inputBytes rest (some e.name, (d : WithTop ℚ))
          else findClosestLoop inputBytes rest best
    else findClosestLoop inputBytes rest best

/-- The function `find_closest_match(input_bytes, folder)`: `best_file = None`,
`best_ncd = float("inf")` initially. -/
def find_closest_match (inputBytes : List Nat) (entries : List ImgEntry) :
    Option String × WithTop ℚ :=
  findClosestLoop inputBytes entries (none, ⊤)

/-- The dictionary returned by `classify_image`. -/
structure ImgResult where
  best_legit_file : Option String
  best_legit_ncd : WithTop ℚ
  best_phish_file : Option String
  best_phish_ncd : WithTop ℚ
  decision : String
  message : String
deriving DecidableEq

/-- The function `classify_image(input_path, legit_folder, phished_folder)`
(image_routes.py lines 47–67): scan both corpora, then
`if best_legit_ncd < best_phish_ncd` decide LEGITIMATE else PHISHED. -/
def classify_image (inputBytes : List Nat)
    (legitFolder phishedFolder : List ImgEntry) : ImgResult :=
  let lm := find_closest_match inputBytes legitFolder
  let pm := find_closest_match inputBytes phishedFolder
  if lm.2 < pm.2 then
    { best_legit_file := lm.1, best_legit_ncd := lm.2,
      best_phish_file := pm.1, best_phish_ncd := pm.2,
      decision := "LEGITIMATE",
      message := "✅ Classified as LEGITIMATE" }
  else
    { best_legit_file := lm.1, best_legit_ncd := lm.2,
      best_phish_file := pm.1, best_phish_ncd := pm.2,
      decision := "PHISHED",
      message := "⚠️ Classified as PHISHED" }

/-! ## Specification-side view of the scan

`find_best_match` is related below to a fold over the list of
successfully processed entries; these definitions name that view. -/

/-- The entries `find_best_match` does not skip: regular files whose
read succeeds (and whose `ncd` division succeeds, which `ncd_isSome`
shows is always). -/
def okEntry (input : Page) (e : Entry) : Bool :=
  e.isFile &&
    (match e.content with
     | none => false
     | some page => (ncd input.text page.text).isSome)

/-- The `(filename, ncd, dom, links)` tuple a successfully processed
entry contributes to the scan, `none` for a skipped entry. -/
def scoreEntry (input : Page) (e : Entry) : Option (String × ℚ × ℚ × ℚ) :=
  if e.isFile then
    match e.content with
    | none => none
    | some page =>
      (ncd input.text page.text).map fun v =>
        (e.name, v, dom_similarity input page, link_similarity input page)
  else none

/-- The `(filename, ncd, dom, links)` tuples of the successfully
processed entries, in visiting order. -/
def scoredFull (input : Page) (l : List Entry) :
    List (String × ℚ × ℚ × ℚ) :=
  l.filterMap (scoreEntry input)

/-- One accumulator update of the scan: the candidate replaces the
incumbent exactly when its NCD is strictly smaller, so the first-seen
entry keeps ties. -/
def bmStep (acc : Option String × Scores) (x : String × ℚ × ℚ × ℚ) :
    Option String × Scores :=
  if (x.2.1 : WithTop ℚ) < acc.2.ncd then
    (some x.1, ⟨(x.2.1 : WithTop ℚ), some x.2.2.1, some x.2.2.2⟩)
  else acc

/-- A minimal concrete normalized page with one `html` tag, no link
domains, and the given visible-text bytes; used for concrete
evaluations of the classifier. -/
def samplePage (t : List Nat) : Page := ⟨["html"], [], t⟩

end PhishingIntellect

example : PhishingIntellect.compress [] = 20 := by decide
example : PhishingIntellect.compress [97] = 21 := by decide
example : PhishingIntellect.compress [97, 97] = 22 := by decide
example : PhishingIntellect.compress [97, 98] = 22 := by decide
example : PhishingIntellect.ncd [97] [97] = some (1 / 21) := by
  norm_num [PhishingIntellect.ncd, PhishingIntellect.compress,
    PhishingIntellect.deflateBits, PhishingIntellect.litBits]

example : PhishingIntellect.ncd [] [] = some 0 := by
  norm_num [PhishingIntellect.ncd, PhishingIntellect.compress,
    PhishingIntellect.deflateBits, PhishingIntellect.litBits]

namespace PhishingIntellect

/-! ## The corpus scan as a fold over its successful entries -/

theorem findBestMatchLoop_eq_foldl (input : Page) (l : List Entry) :
    ∀ acc, findBestMatchLoop input l acc = (scoredFull input l).foldl bmStep acc := by
  induction l with
  | nil => intro acc; rfl
  | cons e rest ih =>
    intro acc
    cases hf : e.isFile with
    | false => simp [findBestMatchLoop, scoredFull, scoreEntry, hf, ih, List.filterMap_cons]
    | true =>
      cases hc : e.content with
      | none => simp [findBestMatchLoop, scoredFull, scoreEntry, hf, hc, ih, List.filterMap_cons]
      | some page =>
        cases hn : ncd input.text page.text with
        | none => simp [findBestMatchLoop, scoredFull, scoreEntry, hf, hc, hn, ih, List.filterMap_cons]
        | some v =>
          by_cases hlt : (v : WithTop ℚ) < acc.2.ncd
          · simp [findBestMatchLoop, scoredFull, scoreEntry, hf, hc, hn, hlt, ih,
              List.filterMap_cons, bmStep]
          · simp [findBestMatchLoop, scoredFull, scoreEntry, hf, hc, hn, hlt, ih,
              List.filterMap_cons, bmStep]

theorem find_best_match_eq_foldl (input : Page) (l : List Entry) :
    find_best_match input (some l) =
      (scoredFull input l).foldl bmStep (none, initScores) :=
  findBestMatchLoop_eq_foldl input l _

theorem scoredFull_filter_ok (input : Page) (l : List Entry) :
    scoredFull input (l.filter (okEntry input)) = scoredFull input l := by
  induction l with
  | nil => rfl
  | cons e rest ih =>
    cases hf : e.isFile with
    | false =>
      simp only [scoredFull, scoreEntry, List.filter_cons, okEntry, hf] at ih ⊢
      simpa [List.filterMap_cons, scoreEntry, hf] using ih
    | true =>
      cases hc : e.content with
      | none =>
        simp only [scoredFull, scoreEntry, List.filter_cons, okEntry, hf, hc] at ih ⊢
        simpa [List.filterMap_cons, scoreEntry, hf, hc] using ih
      | some page =>
        cases hn : ncd input.text page.text with
        | none =>
          simp only [scoredFull, scoreEntry, List.filter_cons, okEntry, hf, hc, hn] at ih ⊢
          simpa [List.filterMap_cons, scoreEntry, hf, hc, hn] using ih
        | some v =>
          simp only [scoredFull, scoreEntry, List.filter_cons, okEntry, hf, hc, hn] at ih ⊢
          simpa [List.filterMap_cons, scoreEntry, hf, hc, hn] using ih

theorem foldl_bmStep_ncd_le (s : List (String × ℚ × ℚ × ℚ)) :
    ∀ acc, ((s.foldl bmStep acc).2.ncd ≤ acc.2.ncd) ∧
      ∀ x ∈ s, (s.foldl bmStep acc).2.ncd ≤ (x.2.1 : WithTop ℚ) := by
  induction s with
  | nil => intro acc; exact ⟨le_refl _, by simp⟩
  | cons x t ih =>
    intro acc
    rw [List.foldl_cons]
    rcases ih (bmStep acc x) with ⟨h1, h2⟩
    by_cases hlt : (x.2.1 : WithTop ℚ) < acc.2.ncd
    · refine ⟨le_trans h1 (by simp [bmStep, hlt]; exact le_of_lt hlt), ?_⟩
      intro y hy
      rcases List.mem_cons.mp hy with rfl | hyt
      · exact le_trans h1 (by simp [bmStep, hlt])
      · exact h2 y hyt
    · refine ⟨by simpa [bmStep, hlt] using h1, ?_⟩
      intro y hy
      rcases List.mem_cons.mp hy with rfl | hyt
      · exact le_trans (by simpa [bmStep, hlt] using h1) (not_lt.mp hlt)
      · exact h2 y hyt

theorem foldl_bmStep_gt (v : ℚ) (s : List (String × ℚ × ℚ × ℚ)) :
    ∀ acc, (v : WithTop ℚ) < acc.2.ncd → (∀ y ∈ s, v < y.2.1) →
      (v : WithTop ℚ) < (s.foldl bmStep acc).2.ncd := by
  induction s with
  | nil => intro acc h _; exact h
  | cons x t ih =>
    intro acc hacc hall
    rw [List.foldl_cons]
    apply ih
    · by_cases hlt : (x.2.1 : WithTop ℚ) < acc.2.ncd
      · simpa [bmStep, hlt] using
          WithTop.coe_lt_coe.mpr (hall x (List.mem_cons_self x t))
      · simpa [bmStep, hlt] using hacc
    · intro y hy; exact hall y (List.mem_cons_of_mem _ hy)

theorem foldl_bmStep_frozen (s : List (String × ℚ × ℚ × ℚ)) :
    ∀ acc, (∀ y ∈ s, ¬ ((y.2.1 : WithTop ℚ) < acc.2.ncd)) →
      s.foldl bmStep acc = acc := by
  induction s with
  | nil => intro acc _; rfl
  | cons x t ih =>
    intro acc h
    rw [List.foldl_cons]
    have hx := h x (List.mem_cons_self x t)
    rw [show bmStep acc x = acc from if_neg hx]
    exact ih acc fun y hy => h y (List.mem_cons_of_mem _ hy)

end PhishingIntellect

namespace PhishingIntellect

/-! ## Claim C5 and Claim C2: totality and self-distance of `ncd` -/

/-- Claim C5: `ncd` is total and never raises.  The division is
well-defined for every pair of byte strings — including the
empty/empty pair — because a gzip stream always has positive length
(10-byte header and 8-byte trailer alone), so the zero-denominator
case of Python's `/` is unreachable; for the empty/empty pair the
numerator `compress(b"") - compress(b"")` vanishes and the result is
exactly `0.0`, not a division error. -/
theorem ncd_total_no_raise :
    (∀ x y : List Nat, (ncd x y).isSome) ∧
    ncd ([] : List Nat) ([] : List Nat) = some 0 ∧
    (∀ data : List Nat, 0 < compress data) :=
  ⟨fun x y => ncd_isSome x y,
   by norm_num [ncd, compress, deflateBits],
   fun d => compress_pos d⟩

/-- Claim C2, counterexample: for the nonempty byte string `b"a"`
(byte 97), gzip compresses `b"a"` to 21 bytes and `b"aa"` to 22 bytes,
so the self-distance is `(22 - 21) / 21 = 1/21`, not `0.0`. -/
theorem ncd_self_dist_nonzero_at_a :
    ([97] : List Nat) ≠ [] ∧
    ncd [97] [97] = some (1 / 21) ∧ (1 / 21 : ℚ) ≠ 0 :=
  ⟨by decide,
   by norm_num [ncd, compress, deflateBits, litBits],
   by norm_num⟩

/-- Claim C2, amended: the gzip self-distance of `x` is
`(compress(x + x) - compress(x)) / compress(x)`; it equals `0.0`
exactly when compressing the doubled payload costs no extra bytes,
which fails for typical nonempty payloads (the counterexample shows
`x = b"a"` gives `1/21`). -/
theorem ncd_self_dist_formula (x : List Nat) :
    ncd x x =
      some ((((compress (x ++ x) : ℤ) : ℚ) - ((compress x : ℤ) : ℚ)) /
        ((compress x : ℤ) : ℚ)) ∧
    (ncd x x = some 0 ↔ compress (x ++ x) = compress x) := by
  have hpos := compress_pos x
  have heq : ncd x x =
      some ((((compress (x ++ x) : ℤ) : ℚ) - ((compress x : ℤ) : ℚ)) /
        ((compress x : ℤ) : ℚ)) := by
    simp [ncd, min_self, max_self, hpos.ne']
  refine ⟨heq, ?_⟩
  rw [heq, Option.some_inj, div_eq_zero_iff, sub_eq_zero]
  have hcx : ((compress x : ℤ) : ℚ) ≠ 0 := by
    have h1 : (0 : ℤ) < (compress x : ℤ) := by exact_mod_cast hpos
    exact_mod_cast h1.ne'
  simp only [hcx, or_false]
  exact_mod_cast Iff.rfl

/-! ## Claim C9: structural similarity metrics -/

/-- Claim C9: `dom_similarity(A, A) = 1.0` for any document with at
least one tag; `dom_similarity` of two tag-less documents is `0.0`
(empty union); `link_similarity` of two documents with empty host sets
is `0.0`, not `1.0`; and away from those empty guards both metrics are
the Jaccard index of the distinct tag-name sets resp. the (lower-cased)
host sets. -/
theorem structural_similarity_jaccard :
    (∀ p : Page, p.tags ≠ [] → dom_similarity p p = 1) ∧
    (∀ p q : Page, p.tags = [] → q.tags = [] → dom_similarity p q = 0) ∧
    (∀ p q : Page, extract_domains p = ∅ → extract_domains q = ∅ →
      link_similarity p q = 0) ∧
    (∀ p q : Page, 0 < (p.tags.toFinset ∪ q.tags.toFinset).card →
      dom_similarity p q =
        ((p.tags.toFinset ∩ q.tags.toFinset).card : ℚ) /
          ((p.tags.toFinset ∪ q.tags.toFinset).card : ℚ)) ∧
    (∀ p q : Page, ¬ (extract_domains p = ∅ ∧ extract_domains q = ∅) →
      link_similarity p q =
        ((extract_domains p ∩ extract_domains q).card : ℚ) /
          ((extract_domains p ∪ extract_domains q).card : ℚ)) := by
  refine ⟨?_, ?_, ?_, ?_, ?_⟩
  · intro p hp
    have hcard : 0 < p.tags.toFinset.card := by
      rw [Finset.card_pos]
      rcases List.exists_mem_of_ne_nil p.tags hp with ⟨a, ha⟩
      exact ⟨a, List.mem_toFinset.mpr ha⟩
    simp only [dom_similarity, Finset.inter_self, Finset.union_self, hcard,
      if_pos]
    exact div_self (by exact_mod_cast hcard.ne')
  · intro p q hp hq
    simp [dom_similarity, hp, hq]
  · intro p q hp hq
    simp [link_similarity, hp, hq]
  · intro p q h
    simp [dom_similarity, h]
  · intro p q h
    simp [link_similarity, h]

/-- Witness for Claim C9's theorem at concrete pages: a one-tag page
has self tag-similarity 1, two tag-less pages have tag-similarity 0,
and two link-less pages have link-similarity 0. -/
theorem structural_similarity_jaccard_witness :
    dom_similarity (samplePage []) (samplePage []) = 1 ∧
    dom_similarity ⟨[], [], []⟩ ⟨[], [], []⟩ = 0 ∧
    link_similarity (samplePage []) (samplePage []) = 0 :=
  ⟨structural_similarity_jaccard.1 (samplePage []) (by simp [samplePage]),
   structural_similarity_jaccard.2.1 ⟨[], [], []⟩ ⟨[], [], []⟩ rfl rfl,
   structural_similarity_jaccard.2.2.1 (samplePage []) (samplePage [])
     (by simp [samplePage, extract_domains]) (by simp [samplePage, extract_domains])⟩

/-! ## Claim C10: the image decision rule -/

/-- Claim C10: `classify_image` decides LEGITIMATE exactly when the
minimal legit NCD is strictly smaller than the minimal phish NCD; in
every other case — an exact tie included, and the case where both
scans found no match so both minima are `float("inf")` — it decides
PHISHED; no input produces an UNKNOWN decision. -/
theorem image_decision_never_unknown (inputBytes : List Nat)
    (legitFolder phishedFolder : List ImgEntry) :
    ((classify_image inputBytes legitFolder phishedFolder).decision = "LEGITIMATE" ∨
      (classify_image inputBytes legitFolder phishedFolder).decision = "PHISHED") ∧
    (¬ ((classify_image inputBytes legitFolder phishedFolder).best_legit_ncd <
          (classify_image inputBytes legitFolder phishedFolder).best_phish_ncd) →
      (classify_image inputBytes legitFolder phishedFolder).decision = "PHISHED") := by
  by_cases h : (find_closest_match inputBytes legitFolder).2 <
      (find_closest_match inputBytes phishedFolder).2
  · constructor
    · left
      simp [classify_image, h]
    · intro hn
      exfalso
      apply hn
      simp only [classify_image]
      simp [h]
  · constructor
    · right
      simp [classify_image, h]
    · intro _
      simp [classify_image, h]

/-- Witness for Claim C10's theorem: with two empty corpus directories
both minima are `float("inf")`, the comparison fails, and the decision
is PHISHED. -/
theorem image_decision_never_unknown_witness :
    (classify_image [] [] []).decision = "PHISHED" := by
  apply (image_decision_never_unknown [] [] []).2
  simp [classify_image, find_closest_match, findClosestLoop]

end PhishingIntellect

namespace PhishingIntellect

/-! ## Claim C7: skip-on-failure, global NCD minimality, first-seen ties -/

/-- Claim C7: (1) removing exactly the skipped entries (non-files,
failed reads, failed divisions) from the listing leaves the scan
result unchanged, so a per-entry failure skips only that entry and
never aborts the scan; (2) the returned scores carry the globally
minimal NCD over all successfully processed entries — selection is by
NCD alone, the dom/links values ride along with the NCD-selected
entry; (3) whenever a successful entry's NCD is strictly below every
earlier success and at most every later one, that first-seen minimal
entry is returned, i.e. the first-seen entry wins ties under the
visiting order. -/
theorem scan_minimal_first_wins (input : Page) (l : List Entry) :
    (find_best_match input (some l) =
      find_best_match input (some (l.filter (okEntry input)))) ∧
    (∀ x ∈ scoredFull input l,
      (find_best_match input (some l)).2.ncd ≤ (x.2.1 : WithTop ℚ)) ∧
    (∀ s1 x s2, scoredFull input l = s1 ++ x :: s2 →
      (∀ y ∈ s1, x.2.1 < y.2.1) → (∀ y ∈ s2, x.2.1 ≤ y.2.1) →
      find_best_match input (some l) =
        (some x.1, ⟨(x.2.1 : WithTop ℚ), some x.2.2.1, some x.2.2.2⟩)) := by
  refine ⟨?_, ?_, ?_⟩
  · rw [find_best_match_eq_foldl, find_best_match_eq_foldl, scoredFull_filter_ok]
  · intro x hx
    rw [find_best_match_eq_foldl]
    exact (foldl_bmStep_ncd_le _ _).2 x hx
  · intro s1 x s2 hsplit h1 h2
    rw [find_best_match_eq_foldl, hsplit, List.foldl_append, List.foldl_cons]
    have hacc1 : (x.2.1 : WithTop ℚ) <
        (List.foldl bmStep (none, initScores) s1).2.ncd := by
      apply foldl_bmStep_gt
      · show (x.2.1 : WithTop ℚ) < initScores.ncd
        exact WithTop.coe_lt_top _
      · exact h1
    rw [show bmStep (List.foldl bmStep (none, initScores) s1) x =
        ((some x.1 : Option String),
         (⟨(x.2.1 : WithTop ℚ), some x.2.2.1, some x.2.2.2⟩ : Scores)) from
      if_pos hacc1]
    apply foldl_bmStep_frozen
    intro y hy
    exact not_lt.mpr (WithTop.coe_le_coe.mpr (h2 y hy))

/-- Witness for Claim C7's theorem: a two-entry corpus whose entries
tie at NCD `1/21` against the query; the first-listed entry
(`b.html`) is returned with its dom/links values. -/
theorem scan_minimal_first_wins_witness :
    find_best_match (samplePage [97])
      (some [⟨"b.html", true, some (samplePage [98])⟩,
             ⟨"c.html", true, some (samplePage [99])⟩]) =
      (some "b.html", ⟨((1 / 21 : ℚ) : WithTop ℚ), some 1, some 0⟩) := by
  apply (scan_minimal_first_wins (samplePage [97])
      [⟨"b.html", true, some (samplePage [98])⟩,
       ⟨"c.html", true, some (samplePage [99])⟩]).2.2
    [] ("b.html", 1 / 21, 1, 0) [("c.html", 1 / 21, 1, 0)]
  · norm_num [scoredFull, scoreEntry, samplePage, ncd, compress, deflateBits,
      litBits, dom_similarity, link_similarity, extract_domains,
      List.filterMap_cons]
  · intro y hy
    simp at hy
  · intro y hy
    simp only [List.mem_singleton] at hy
    subst hy
    norm_num

end PhishingIntellect

namespace PhishingIntellect

/-! ## Claim C3: dependence on the enumeration order -/

theorem bmStep_comm_of_lt (x y : String × ℚ × ℚ × ℚ)
    (hlt : x.2.1 < y.2.1) (z : Option String × Scores) :
    bmStep (bmStep z x) y = bmStep (bmStep z y) x := by
  have hxy : ((x.2.1 : ℚ) : WithTop ℚ) < ((y.2.1 : ℚ) : WithTop ℚ) :=
    WithTop.coe_lt_coe.mpr hlt
  by_cases h1 : (x.2.1 : WithTop ℚ) < z.2.ncd
  · have e1 : bmStep z x =
        ((some x.1 : Option String),
         (⟨(x.2.1 : WithTop ℚ), some x.2.2.1, some x.2.2.2⟩ : Scores)) :=
      if_pos h1
    have h2 : ¬ ((y.2.1 : WithTop ℚ) < (bmStep z x).2.ncd) := by
      rw [e1]
      exact not_lt.mpr hxy.le
    have eL : bmStep (bmStep z x) y = bmStep z x := if_neg h2
    by_cases h3 : (y.2.1 : WithTop ℚ) < z.2.ncd
    · have e2 : bmStep z y =
          ((some y.1 : Option String),
           (⟨(y.2.1 : WithTop ℚ), some y.2.2.1, some y.2.2.2⟩ : Scores)) :=
        if_pos h3
      have h4 : (x.2.1 : WithTop ℚ) < (bmStep z y).2.ncd := by
        rw [e2]
        exact hxy
      have eR : bmStep (bmStep z y) x =
          ((some x.1 : Option String),
           (⟨(x.2.1 : WithTop ℚ), some x.2.2.1, some x.2.2.2⟩ : Scores)) :=
        if_pos h4
      rw [eL, eR, e1]
    · have e2 : bmStep z y = z := if_neg h3
      have eR : bmStep (bmStep z y) x =
          ((some x.1 : Option String),
           (⟨(x.2.1 : WithTop ℚ), some x.2.2.1, some x.2.2.2⟩ : Scores)) := by
        rw [e2]
        exact if_pos h1
      rw [eL, eR, e1]
  · have e1 : bmStep z x = z := if_neg h1
    have h3 : ¬ ((y.2.1 : WithTop ℚ) < z.2.ncd) := fun hc => h1 (lt_trans hxy hc)
    have eL : bmStep (bmStep z x) y = z := by
      rw [e1]
      exact if_neg h3
    have e2 : bmStep z y = z := if_neg h3
    have eR : bmStep (bmStep z y) x = z := by
      rw [e2]
      exact if_neg h1
    rw [eL, eR]

theorem bmStep_comm (x y : String × ℚ × ℚ × ℚ) (h : x.2.1 ≠ y.2.1)
    (z : Option String × Scores) :
    bmStep (bmStep z x) y = bmStep (bmStep z y) x := by
  rcases lt_trichotomy (x.2.1 : ℚ) y.2.1 with hlt | heq | hgt
  · exact bmStep_comm_of_lt x y hlt z
  · exact absurd heq h
  · exact (bmStep_comm_of_lt y x hgt z).symm

/-- Claim C3, amended: `find_best_match` visits entries in the order
handed to it by `os.listdir` (the filesystem-native enumeration, not
an explicitly sorted one); for a fixed enumeration the result is a
deterministic function of the listing with the first-seen entry
winning NCD ties, and the result is independent of the enumeration
order whenever the successfully processed entries' NCD values are
pairwise distinct.  (On NCD ties, different enumeration orders can
return different best matches — see the counterexample.) -/
theorem scan_perm_invariant_of_distinct (input : Page) (l1 l2 : List Entry)
    (hp : l1.Perm l2)
    (hnd : ((scoredFull input l1).map (fun x => x.2.1)).Nodup) :
    find_best_match input (some l1) = find_best_match input (some l2) := by
  rw [find_best_match_eq_foldl, find_best_match_eq_foldl]
  have hps : (scoredFull input l1).Perm (scoredFull input l2) :=
    hp.filterMap (scoreEntry input)
  apply hps.foldl_eq'
  intro x hx y hy z
  by_cases hxy : x = y
  · subst hxy
    rfl
  · have hvals : x.2.1 ≠ y.2.1 := fun he =>
      hxy (List.inj_on_of_nodup_map hnd hx hy he)
    exact bmStep_comm x y hvals z

/-- Witness for Claim C3's amended theorem: two entries with distinct
NCDs (`1/21` for `b.html` against query text `b`, `2/21` for `x.html`
whose text `ab` is farther) are scanned in both orders with the same
result. -/
theorem scan_perm_invariant_of_distinct_witness :
    find_best_match (samplePage [98])
      (some [⟨"b.html", true, some (samplePage [98, 98])⟩,
             ⟨"x.html", true, some (samplePage [97, 98, 99])⟩]) =
    find_best_match (samplePage [98])
      (some [⟨"x.html", true, some (samplePage [97, 98, 99])⟩,
             ⟨"b.html", true, some (samplePage [98, 98])⟩]) := by
  apply scan_perm_invariant_of_distinct
  · exact List.Perm.swap _ _ _
  · norm_num [scoredFull, scoreEntry, samplePage, ncd, compress, deflateBits,
      litBits, dom_similarity, link_similarity, extract_domains,
      List.filterMap_cons]

/-- Claim C3, counterexample: the scan visits entries in the
enumeration order it is given (the code iterates `os.listdir` with no
sorting), so the same directory contents enumerated in the two
possible orders — with the two entries tied at NCD `1/21` against the
query — return different best matches: `b.html` first in one order,
`c.html` first in the other. -/
theorem scan_enumeration_order_matters :
    (([⟨"b.html", true, some (samplePage [98])⟩,
       ⟨"c.html", true, some (samplePage [99])⟩] : List Entry).Perm
      [⟨"c.html", true, some (samplePage [99])⟩,
       ⟨"b.html", true, some (samplePage [98])⟩]) ∧
    (find_best_match (samplePage [97])
      (some [⟨"b.html", true, some (samplePage [98])⟩,
             ⟨"c.html", true, some (samplePage [99])⟩])).1 = some "b.html" ∧
    (find_best_match (samplePage [97])
      (some [⟨"c.html", true, some (samplePage [99])⟩,
             ⟨"b.html", true, some (samplePage [98])⟩])).1 = some "c.html" := by
  refine ⟨List.Perm.swap _ _ _, ?_, ?_⟩
  · norm_num [find_best_match, findBestMatchLoop, initScores, samplePage, ncd,
      compress, deflateBits, litBits, dom_similarity, link_similarity,
      extract_domains]
  · norm_num [find_best_match, findBestMatchLoop, initScores, samplePage, ncd,
      compress, deflateBits, litBits, dom_similarity, link_similarity,
      extract_domains]

end PhishingIntellect

namespace PhishingIntellect

/-! ## Claim C6: known-phish fast path -/

/-- Claim C6: when `is_known_phish` holds — the trimmed, lower-cased
URL is exactly a listed entry, or its parsed host is a nonempty
substring of some listed entry — `classify_url` returns the PHISHED
decision with `known_phish = true`, all best-match fields still at
their defaults, and the effect trace records zero network fetches and
zero corpus scans. -/
theorem known_phish_fast_path (known : List (List Char)) (url : List Char)
    (fetched : Option Page) (lf pf : Option (List Entry))
    (h : is_known_phish known url = true) :
    classify_url_run known url fetched lf pf =
      ({ url := url, known_phish := true, best_legit_file := none,
         best_phish_file := none, best_legit_scores := none,
         best_phish_scores := none, legit_total_score := 0,
         phish_total_score := 0, decision := some "PHISHED",
         message := "⚠️ URL found in known phishing dataset." }, ⟨0, 0⟩) := by
  simp [classify_url_run, h]

/-- Witness for Claim C6's theorem: the URL `e` is literally listed, so
the classifier short-circuits with no fetch and no scan. -/
theorem known_phish_fast_path_witness :
    (classify_url_run [['e']] ['e'] none none none).1.decision = some "PHISHED" ∧
    (classify_url_run [['e']] ['e'] none none none).1.known_phish = true ∧
    (classify_url_run [['e']] ['e'] none none none).1.best_legit_file = none ∧
    (classify_url_run [['e']] ['e'] none none none).2 = ⟨0, 0⟩ := by
  have h := known_phish_fast_path [['e']] ['e'] none none none (by decide)
  rw [h]
  exact ⟨rfl, rfl, rfl, rfl⟩

/-! ## Claim C8: fetch failure yields UNKNOWN, not a crash -/

/-- Claim C8: when the URL is not a known phish and the network fetch
raises (any exception, caught at lines 221–223), `classify_url`
returns a structured result with a null decision (UNKNOWN) and a
nonempty explanatory message, performs no corpus scan, and — being a
total function of its inputs in this embedding — propagates no
exception. -/
theorem fetch_failure_unknown (known : List (List Char)) (url : List Char)
    (lf pf : Option (List Entry)) (h : is_known_phish known url = false) :
    (classify_url_run known url none lf pf).1.decision = none ∧
    (classify_url_run known url none lf pf).1.message =
      "Could not fetch URL content: error" ∧
    (classify_url_run known url none lf pf).1.message ≠ "" ∧
    (classify_url_run known url none lf pf).2.scans = 0 := by
  refine ⟨?_, ?_, ?_, ?_⟩ <;> simp [classify_url_run, h]

/-- Witness for Claim C8's theorem: an unlisted URL with a failing
fetch yields a null decision and no scans. -/
theorem fetch_failure_unknown_witness :
    (classify_url_run [] ['u'] none none none).1.decision = none ∧
    (classify_url_run [] ['u'] none none none).2.scans = 0 := by
  have h := fetch_failure_unknown [] ['u'] none none (by decide)
  exact ⟨h.1, h.2.2.2⟩

/-! ## Claim C4: missing or empty corpus directory -/

/-- Claim C4, counterexample: for a missing directory and for an empty
one, `find_best_match` returns `dom = 0.0` and `links = 0.0` inside
the scores dictionary (the literal initial `{"ncd": float("inf"),
"dom": 0.0, "links": 0.0}`), not the nulls the claim states. -/
theorem empty_corpus_dom_not_null :
    (find_best_match (samplePage []) none).2.dom = some 0 ∧
    (find_best_match (samplePage []) (some [])).2.dom = some 0 ∧
    (find_best_match (samplePage []) none).2.links = some 0 ∧
    some (0 : ℚ) ≠ (none : Option ℚ) :=
  ⟨rfl, rfl, rfl, by simp⟩

/-- Claim C4, amended: a missing or empty corpus directory makes
`find_best_match` return `(None, {"ncd": float("inf"), "dom": 0.0,
"links": 0.0})` — no exception, `ncd` infinite, but `dom`/`links` are
`0.0` rather than null — and downstream fusion gives that category a
total contribution of exactly `0`. -/
theorem empty_corpus_zero_contribution (input : Page)
    (folder : Option (List Entry))
    (h : folder = none ∨ folder = some []) :
    find_best_match input folder = (none, ⟨⊤, some 0, some 0⟩) ∧
    ∀ (known : List (List Char)) (url : List Char) (pf : Option (List Entry)),
      is_known_phish known url = false →
      (classify_url known url (some input) folder pf).legit_total_score = 0 := by
  have hfb : find_best_match input folder = (none, initScores) := by
    rcases h with rfl | rfl
    · rfl
    · rfl
  refine ⟨hfb, ?_⟩
  intro known url pf hk
  by_cases hpm : (find_best_match input pf).1 = none
  · simp [classify_url, classify_url_run, hk, hfb, hpm, initScores]
  · simp [classify_url, classify_url_run, hk, hfb, hpm, initScores]
    split_ifs <;> rfl

/-- Witness for Claim C4's amended theorem at an empty directory
listing and a concrete classification. -/
theorem empty_corpus_zero_contribution_witness :
    find_best_match (samplePage []) (some []) = (none, ⟨⊤, some 0, some 0⟩) ∧
    (classify_url [] ['u'] (some (samplePage [])) (some []) none).legit_total_score
      = 0 :=
  ⟨(empty_corpus_zero_contribution (samplePage []) (some []) (Or.inr rfl)).1,
   (empty_corpus_zero_contribution (samplePage []) (some []) (Or.inr rfl)).2
     [] ['u'] none (by decide)⟩

end PhishingIntellect

namespace PhishingIntellect

/-! ## Claim C1: the fused decision rule -/

theorem classify_url_fusion_eq (known : List (List Char)) (url : List Char)
    (input : Page) (lf pf : Option (List Entry))
    (hk : is_known_phish known url = false)
    (hm : ¬ ((find_best_match input lf).1 = none ∧
             (find_best_match input pf).1 = none)) :
    classify_url known url (some input) lf pf =
      (let lm := find_best_match input lf
       let pm := find_best_match input pf
       let LT : ℚ := if lm.1.isSome then
         ncd_to_sim lm.2.ncd + lm.2.dom.getD 0 + lm.2.links.getD 0 else 0
       let PT : ℚ := if pm.1.isSome then
         ncd_to_sim pm.2.ncd + pm.2.dom.getD 0 + pm.2.links.getD 0 else 0
       { url := url, known_phish := false,
         best_legit_file := lm.1, best_phish_file := pm.1,
         best_legit_scores :=
           if lm.1.isSome then some (sanitize_scores lm.2) else none,
         best_phish_scores :=
           if pm.1.isSome then some (sanitize_scores pm.2) else none,
         legit_total_score := LT, phish_total_score := PT,
         decision := if LT > PT ∧ LT > 0 then some "LEGITIMATE"
           else if PT > 0 then some "PHISHED" else none,
         message := if LT > PT ∧ LT > 0 then "✅ Classified as LEGITIMATE"
           else if PT > 0 then "⚠️ Classified as PHISHED"
           else "No strong evidence from similarity metrics." }) := by
  simp only [classify_url, classify_url_run]
  rw [if_neg (show ¬ (is_known_phish known url = true) by simp [hk])]
  rw [if_neg hm]
  split_ifs <;> rfl

/-- Claim C1, amended: when the URL is not a known phish, the fetch
succeeded, and at least one corpus scan returned a match, the decision
is LEGITIMATE exactly when the legit fused total is strictly greater
than the phish total and positive; otherwise it is PHISHED exactly
when the phish total is positive — in particular equal positive totals
decide PHISHED, not UNKNOWN — and it is UNKNOWN (null) exactly when
the phish total is ≤ 0 and the legit total is ≤ the phish total or
≤ 0. -/
theorem fusion_decision_rule (known : List (List Char)) (url : List Char)
    (input : Page) (lf pf : Option (List Entry))
    (hk : is_known_phish known url = false)
    (hm : ¬ ((find_best_match input lf).1 = none ∧
             (find_best_match input pf).1 = none)) :
    ((classify_url known url (some input) lf pf).decision = some "LEGITIMATE" ↔
      (classify_url known url (some input) lf pf).phish_total_score <
          (classify_url known url (some input) lf pf).legit_total_score ∧
        0 < (classify_url known url (some input) lf pf).legit_total_score) ∧
    ((classify_url known url (some input) lf pf).decision = some "PHISHED" ↔
      ¬ ((classify_url known url (some input) lf pf).phish_total_score <
            (classify_url known url (some input) lf pf).legit_total_score ∧
          0 < (classify_url known url (some input) lf pf).legit_total_score) ∧
        0 < (classify_url known url (some input) lf pf).phish_total_score) ∧
    ((classify_url known url (some input) lf pf).decision = none ↔
      (classify_url known url (some input) lf pf).phish_total_score ≤ 0 ∧
        ((classify_url known url (some input) lf pf).legit_total_score ≤
            (classify_url known url (some input) lf pf).phish_total_score ∨
          (classify_url known url (some input) lf pf).legit_total_score ≤ 0)) := by
  rw [classify_url_fusion_eq known url input lf pf hk hm]
  dsimp only
  set LT : ℚ := (if (find_best_match input lf).1.isSome then
    ncd_to_sim (find_best_match input lf).2.ncd +
      (find_best_match input lf).2.dom.getD 0 +
      (find_best_match input lf).2.links.getD 0 else 0) with hLT
  set PT : ℚ := (if (find_best_match input pf).1.isSome then
    ncd_to_sim (find_best_match input pf).2.ncd +
      (find_best_match input pf).2.dom.getD 0 +
      (find_best_match input pf).2.links.getD 0 else 0) with hPT
  split_ifs with h1 h2
  · exact ⟨iff_of_true rfl h1,
      iff_of_false (by simp) (fun hc => hc.1 h1),
      iff_of_false (by simp)
        (fun hc => hc.2.elim
          (fun hle => absurd (lt_of_lt_of_le h1.1 hle) (lt_irrefl _))
          (fun hle => absurd (lt_of_lt_of_le h1.2 hle) (lt_irrefl _)))⟩
  · exact ⟨iff_of_false (by simp) h1,
      iff_of_true rfl ⟨h1, h2⟩,
      iff_of_false (by simp)
        (fun hc => absurd (lt_of_lt_of_le h2 hc.1) (lt_irrefl _))⟩
  · refine ⟨iff_of_false (by simp) h1,
      iff_of_false (by simp) (fun hc => h2 hc.2),
      iff_of_true rfl ⟨not_lt.mp h2, ?_⟩⟩
    by_cases hl : PT < LT
    · exact Or.inr (not_lt.mp fun h0 => h1 ⟨hl, h0⟩)
    · exact Or.inl (not_lt.mp hl)

/-- Witness for Claim C1's amended theorem: a legit-only match (legit
corpus holds one page, phish corpus directory is empty), at which the
LEGITIMATE iff is obtained with its hypotheses discharged
concretely. -/
theorem fusion_decision_rule_witness :
    (classify_url [] ['u'] (some (samplePage [97]))
        (some [⟨"l.html", true, some (samplePage [98])⟩])
        (some [])).decision = some "LEGITIMATE" ↔
      (classify_url [] ['u'] (some (samplePage [97]))
          (some [⟨"l.html", true, some (samplePage [98])⟩])
          (some [])).phish_total_score <
          (classify_url [] ['u'] (some (samplePage [97]))
              (some [⟨"l.html", true, some (samplePage [98])⟩])
              (some [])).legit_total_score ∧
        0 < (classify_url [] ['u'] (some (samplePage [97]))
            (some [⟨"l.html", true, some (samplePage [98])⟩])
            (some [])).legit_total_score :=
  (fusion_decision_rule [] ['u'] (samplePage [97])
    (some [⟨"l.html", true, some (samplePage [98])⟩]) (some [])
    (by decide)
    (by
      norm_num [find_best_match, findBestMatchLoop, initScores, samplePage,
        ncd, compress, deflateBits, litBits, dom_similarity, link_similarity,
        extract_domains]
      simp)).1

/-- Claim C1, counterexample: two identical one-page corpora give
equal positive fused totals (both `41/21`), and the decision is
PHISHED, not the UNKNOWN the claim requires for equal totals. -/
theorem equal_totals_decide_phished :
    (classify_url [] ['u'] (some (samplePage [97]))
        (some [⟨"l.html", true, some (samplePage [98])⟩])
        (some [⟨"p.html", true, some (samplePage [98])⟩])).legit_total_score =
      (classify_url [] ['u'] (some (samplePage [97]))
          (some [⟨"l.html", true, some (samplePage [98])⟩])
          (some [⟨"p.html", true, some (samplePage [98])⟩])).phish_total_score ∧
    0 < (classify_url [] ['u'] (some (samplePage [97]))
        (some [⟨"l.html", true, some (samplePage [98])⟩])
        (some [⟨"p.html", true, some (samplePage [98])⟩])).phish_total_score ∧
    (classify_url [] ['u'] (some (samplePage [97]))
        (some [⟨"l.html", true, some (samplePage [98])⟩])
        (some [⟨"p.html", true, some (samplePage [98])⟩])).decision =
      some "PHISHED" := by
  have hk : is_known_phish [] ['u'] = false := by decide
  have hL : find_best_match (samplePage [97])
      (some [⟨"l.html", true, some (samplePage [98])⟩]) =
      (some "l.html", ⟨((1 / 21 : ℚ) : WithTop ℚ), some 1, some 0⟩) := by
    norm_num [find_best_match, findBestMatchLoop, initScores, samplePage, ncd,
      compress, deflateBits, litBits, dom_similarity, link_similarity,
      extract_domains]
  have hP : find_best_match (samplePage [97])
      (some [⟨"p.html", true, some (samplePage [98])⟩]) =
      (some "p.html", ⟨((1 / 21 : ℚ) : WithTop ℚ), some 1, some 0⟩) := by
    norm_num [find_best_match, findBestMatchLoop, initScores, samplePage, ncd,
      compress, deflateBits, litBits, dom_similarity, link_similarity,
      extract_domains]
  simp only [classify_url, classify_url_run, hk, hL, hP]
  norm_num [ncd_to_sim, sanitize_scores]
  simp

end PhishingIntellect

namespace PhishingIntellect

/-- Witness for Claim C2's amended theorem at the concrete byte string
`b"a"`: the self-distance is zero exactly when the doubled payload
compresses to the single payload's size. -/
theorem ncd_self_dist_formula_witness :
    ncd [97] [97] = some 0 ↔ compress ([97] ++ [97]) = compress [97] :=
  (ncd_self_dist_formula [97]).2

end PhishingIntellect
